import Mathlib

/-!
Shallow embedding of the SharePoint MCP server's authentication and
Graph-API client core (src/auth/sharepoint_auth.py, src/utils/graph_client.py,
src/server.py), together with theorems settling the specification claims
about it.

Modelling conventions:
* `datetime` values are modelled as integer timestamps (`Int`); `timedelta`
  addition is integer addition.  `Optional[datetime]` is `Option Int`.
* Python strings are Lean `String`s; an f-string becomes `++`-concatenation.
* A raised `Exception(msg)` becomes `Except.error msg`.
* `logger.error`/`logger.warning` calls on the failure paths that the claims
  talk about are modelled as a `List String` of emitted messages, returned
  next to the result.  `logger.debug`/`logger.info` chatter is elided.
* The network is modelled by its observable response: an `HttpResponse`
  holding the status code, the parsed JSON body and the raw text.
-/

/-- JSON values, as produced by `response.json()`. -/
inductive Json where
  | null : Json
  | bool (b : Bool) : Json
  | num (n : Int) : Json
  | str (s : String) : Json
  | arr (xs : List Json) : Json
  | obj (fields : List (String × Json)) : Json

/-- An HTTP response as observed by the client: status code, parsed JSON
body (`response.json()`) and raw text (`response.text`). -/
structure HttpResponse where
  status : Nat
  body : Json
  text : String

/-- Character-list version of a "does `n` occur at the start of `h`" check. -/
def startsWithL : List Char → List Char → Bool
  | [], _ => true
  | _ :: _, [] => false
  | a :: n, b :: h => a == b && startsWithL n h

/-- Character-list version of Python's substring test `n in h`. -/
def hasSub (n : List Char) : List Char → Bool
  | [] => startsWithL n []
  | c :: t => startsWithL n (c :: t) || hasSub n t

/-- Python's substring operator `n in h` on strings. -/
def strHasSub (n h : String) : Bool :=
  hasSub n.data h.data

/-- Python's `s.startswith(p)` on strings. -/
def strStartsWith (s p : String) : Bool :=
  startsWithL p.data s.data

/-- Python's `s.lower()` (ASCII case folding, the only case the checked
URLs exercise). -/
def strToLower (s : String) : String :=
  ⟨s.data.map Char.toLower⟩

/-- Embedding of the `SharePointContext` dataclass
(src/auth/sharepoint_auth.py lines 17-22).  `token_expiry` is optional
because `is_token_valid` guards against a `None` expiry. -/
structure SharePointContext where
  access_token : String
  token_expiry : Option Int
  graph_url : String := "https://graph.microsoft.com/v1.0"
deriving DecidableEq

/-- Embedding of `SharePointContext.headers`
(src/auth/sharepoint_auth.py lines 24-34): the returned dict, in source
order.  The method only logs a token preview besides building the dict. -/
def SharePointContext.headers (ctx : SharePointContext) : List (String × String) :=
  [("Authorization", "Bearer " ++ ctx.access_token),
   ("Content-Type", "application/json")]

/-- Embedding of `SharePointContext.is_token_valid`
(src/auth/sharepoint_auth.py lines 36-43), with `now` the value of
`datetime.now()` at the call.  `if not self.token_expiry` is true exactly
for `None` (datetime objects are never falsy). -/
def SharePointContext.is_token_valid (now : Int) (ctx : SharePointContext) : Bool :=
  match ctx.token_expiry with
  | none => false
  | some e => decide (now < e)

/-- The SharePoint configuration consumed by `validate_config`
(src/config/settings.py `SHAREPOINT_CONFIG`): the four keys it inspects. -/
structure SharePointConfig where
  tenant_id : String
  client_id : String
  client_secret : String
  site_url : String

/-- The keys of `SHAREPOINT_CONFIG` whose value is falsy (empty string),
in the order `validate_config` scans them. -/
def missingVars (c : SharePointConfig) : List String :=
  (List.filter (fun kv => kv.2 = "")
    [("tenant_id", c.tenant_id), ("client_id", c.client_id),
     ("client_secret", c.client_secret), ("site_url", c.site_url)]).map Prod.fst

/-- Python `", ".join(xs)`. -/
def joinComma : List String → String
  | [] => ""
  | [x] => x
  | x :: xs => x ++ ", " ++ joinComma xs

/-- Embedding of `validate_config` (src/auth/sharepoint_auth.py lines
195-211): first the presence check on the four keys, then the site-URL
shape check (`https://` scheme and `.sharepoint.com/` in the lowercased
URL). -/
def validate_config (c : SharePointConfig) : Except String Unit :=
  if missingVars c ≠ [] then
    Except.error ("Missing required configuration: " ++ joinComma (missingVars c))
  else if ¬ (strStartsWith c.site_url "https://" = true ∧
             strHasSub ".sharepoint.com/" (strToLower c.site_url) = true) then
    Except.error ("Invalid SharePoint site URL: " ++ c.site_url)
  else
    Except.ok ()

/-- The JSON object returned by the identity provider's token endpoint,
restricted to the fields `get_auth_context` consumes: `access_token`,
`expires_in`, `error`, `error_description`. -/
structure TokenResult where
  access_token : Option String
  expires_in : Option Int
  error : Option String
  error_description : Option String

/-- Embedding of the tail of `get_auth_context`
(src/auth/sharepoint_auth.py lines 256-295), after configuration
validation and the MSAL token request, both of whose outcomes are inputs
here: `result` is the token-exchange response, `cacheIn` the token-cache
file contents before the call (`none` when absent), `cacheBlob` the
serialized cache MSAL would produce, `now` the wall clock.  Returns the
outcome together with the cache-file state after the call.  The
`"access_token" not in result` check (line 257) raises before the cache
write (line 281); on success the cache is written, the expiry is
`now + result.get("expires_in", 3600)` and a fresh context is returned. -/
def get_auth_context (cacheIn : Option String) (cacheBlob : String)
    (result : TokenResult) (now : Int) :
    Except String SharePointContext × Option String :=
  match result.access_token with
  | none =>
      (Except.error ("Authentication failed: " ++ result.error.getD "unknown" ++
        " - " ++ result.error_description.getD "Unknown error"), cacheIn)
  | some tok =>
      let expiry := now + result.expires_in.getD 3600
      (Except.ok { access_token := tok, token_expiry := some expiry }, some cacheBlob)

/-- Embedding of `refresh_token_if_needed`
(src/auth/sharepoint_auth.py lines 315-329).  `auth` is the outcome of the
inner `get_auth_context()` call.  The function mutates the shared context
in place, one field at a time (`context.access_token = ...` on line 324,
then `context.token_expiry = ...` on line 325); the returned list is the
trace of states the shared context passes through, so that intermediate
observability can be stated. -/
def refresh_token_if_needed (now : Int) (ctx : SharePointContext)
    (auth : Except String SharePointContext) :
    Except String (List SharePointContext) :=
  if SharePointContext.is_token_valid now ctx then
    Except.ok [ctx]
  else
    match auth with
    | Except.error e => Except.error e
    | Except.ok newC =>
        let mid := { ctx with access_token := newC.access_token }
        let fin := { mid with token_expiry := newC.token_expiry }
        Except.ok [ctx, mid, fin]

/-- The generic error message every GraphClient verb builds on a rejected
status: `f"Graph API error: {response.status_code} - {error_text}"`. -/
def graphErrMsg (status : Nat) (text : String) : String :=
  "Graph API error: " ++ toString status ++ " - " ++ text

/-- The dedicated claims diagnostic GET and POST log when a 401/403 body
contains `"scp or roles claim"` (src/utils/graph_client.py line 60). -/
def claimsDiagnostic : String :=
  "Token does not have required claims (scp or roles)"

/-- The `logger.error` messages emitted on a rejected status by a verb that
performs the 401/403 claims check (GET and POST): the generic message, then
the authorization-error notice and, when the body contains
`"scp or roles claim"`, the claims diagnostic and the Azure AD hint
(src/utils/graph_client.py lines 52-62 and 94-104). -/
def authErrorLogs (status : Nat) (text : String) : List String :=
  [graphErrMsg status text] ++
    (if status = 401 ∨ status = 403 then
      ["Authentication or authorization error detected"] ++
        (if strHasSub "scp or roles claim" text then
          [claimsDiagnostic, "Please check application permissions in Azure AD"]
        else [])
    else [])

/-- The synthetic body `{"status": "success"}`. -/
def successJson : Json :=
  Json.obj [("status", Json.str "success")]

/-- Embedding of the response handling of `GraphClient.get`
(src/utils/graph_client.py lines 28-66); URL construction and header
passing are elided, the argument is the network response.  Only status 200
is accepted; any other status logs (with the 401/403 claims check) and
raises; on 200 the parsed JSON body is returned as is. -/
def GraphClient.get (r : HttpResponse) : Except String Json × List String :=
  if r.status ≠ 200 then
    (Except.error (graphErrMsg r.status r.text), authErrorLogs r.status r.text)
  else
    (Except.ok r.body, [])

/-- Embedding of the response handling of `GraphClient.post`
(src/utils/graph_client.py lines 68-108): statuses 200 and 201 are
accepted and return the parsed body; any other status logs (with the
401/403 claims check) and raises. -/
def GraphClient.post (r : HttpResponse) : Except String Json × List String :=
  if ¬ (r.status = 200 ∨ r.status = 201) then
    (Except.error (graphErrMsg r.status r.text), authErrorLogs r.status r.text)
  else
    (Except.ok r.body, [])

/-- Embedding of the response handling of `GraphClient.patch`
(src/utils/graph_client.py lines 110-144): statuses 200, 201 and 204 are
accepted; 204 yields the synthetic `{"status": "success"}` without touching
the body, 200/201 yield the parsed body; any other status logs only the
generic message (no claims check) and raises. -/
def GraphClient.patch (r : HttpResponse) : Except String Json × List String :=
  if ¬ (r.status = 200 ∨ r.status = 201 ∨ r.status = 204) then
    (Except.error (graphErrMsg r.status r.text), [graphErrMsg r.status r.text])
  else if r.status = 204 then
    (Except.ok successJson, [])
  else
    (Except.ok r.body, [])

/-- Embedding of the response handling of `GraphClient.delete`
(src/utils/graph_client.py lines 146-176): statuses 200, 201 and 204 are
accepted and all of them yield the synthetic `{"status": "success"}` (the
body is never parsed); any other status logs only the generic message and
raises. -/
def GraphClient.delete (r : HttpResponse) : Except String Json × List String :=
  if ¬ (r.status = 200 ∨ r.status = 201 ∨ r.status = 204) then
    (Except.error (graphErrMsg r.status r.text), [graphErrMsg r.status r.text])
  else
    (Except.ok successJson, [])

/-- Embedding of the response handling of `GraphClient.upload_file`
(src/utils/graph_client.py lines 178-216): statuses 200, 201 and 204 are
accepted; 204 yields the synthetic `{"status": "success"}`, 200/201 yield
the parsed body; any other status logs only the generic message and
raises. -/
def GraphClient.upload_file (r : HttpResponse) : Except String Json × List String :=
  if ¬ (r.status = 200 ∨ r.status = 201 ∨ r.status = 204) then
    (Except.error (graphErrMsg r.status r.text), [graphErrMsg r.status r.text])
  else if r.status = 204 then
    (Except.ok successJson, [])
  else
    (Except.ok r.body, [])

/-- Python `current_path += f"/{part}"` with the empty-start special case
from `create_folder_in_library` (src/utils/graph_client.py lines 705-708). -/
def extendPath (cur part : String) : String :=
  if cur = "" then part else cur ++ "/" ++ part

/-- The per-segment loop of `GraphClient.create_folder_in_library`
(src/utils/graph_client.py lines 701-732).  The remote drive is modelled
by the list `state` of folder paths that exist: the probe
`await self.get(...root:/{current_path})` succeeds exactly when
`current_path` is in the state, and the create POST (conflict behaviour
`rename`) adds `current_path` to the state.  Returns the drive state after
the loop together with the list of paths the loop issued creates for, in
order. -/
def createFolderLoop (state : List String) (cur : String) :
    List String → List String × List String
  | [] => (state, [])
  | part :: rest =>
    if part = "" then
      createFolderLoop state cur rest
    else
      let cur' := extendPath cur part
      if cur' ∈ state then
        createFolderLoop state cur' rest
      else
        let r := createFolderLoop (cur' :: state) cur' rest
        (r.1, cur' :: r.2)

/-- Embedding of `GraphClient.create_folder_in_library`
(src/utils/graph_client.py lines 683-734): split the folder path on `/`
(`folder_path.split('/')`, empty segments skipped by the loop) and run the
probe-then-create loop over the segments against the drive state. -/
def GraphClient.create_folder_in_library (state : List String)
    (folder_path : String) : List String × List String :=
  createFolderLoop state "" (folder_path.splitOn "/")

/-- Embedding of `sharepoint_lifespan` (src/server.py lines 26-54) on the
startup path: `auth` is the outcome of `get_auth_context()`.  On failure
the error is swallowed and a fallback context with the literal token
`"error"`, expiry `datetime.now() + timedelta(seconds=10)` and the default
Graph URL is yielded instead. -/
def sharepoint_lifespan (now : Int) (auth : Except String SharePointContext) :
    SharePointContext :=
  match auth with
  | Except.ok c => c
  | Except.error _ =>
      { access_token := "error", token_expiry := some (now + 10),
        graph_url := "https://graph.microsoft.com/v1.0" }

theorem string_data_append (a b : String) : (a ++ b).data = a.data ++ b.data := rfl

theorem startsWithL_nil (h : List Char) : startsWithL [] h = true := rfl

theorem startsWithL_append (n h t : List Char) (hs : startsWithL n h = true) :
    startsWithL n (h ++ t) = true := by
  induction n generalizing h with
  | nil => rfl
  | cons a as ih =>
    cases h with
    | nil => simp [startsWithL] at hs
    | cons b bs =>
      simp only [startsWithL, Bool.and_eq_true] at hs ⊢
      exact ⟨hs.1, ih bs hs.2⟩

theorem startsWithL_refl (n : List Char) : startsWithL n n = true := by
  induction n with
  | nil => rfl
  | cons a as ih => simp [startsWithL, ih]

theorem hasSub_nil (t : List Char) : hasSub [] t = true := by
  cases t <;> simp [hasSub, startsWithL]

theorem hasSub_of_startsWithL (n h : List Char) (hs : startsWithL n h = true) :
    hasSub n h = true := by
  cases h with
  | nil => simpa [hasSub] using hs
  | cons c t => simp [hasSub, hs]

theorem hasSub_append_right (n h t : List Char) (hh : hasSub n h = true) :
    hasSub n (h ++ t) = true := by
  induction h with
  | nil =>
    cases n with
    | nil => simpa using hasSub_nil t
    | cons a as => simp [hasSub, startsWithL] at hh
  | cons c h' ih =>
    simp only [hasSub, Bool.or_eq_true] at hh
    rcases hh with hs | hr
    · exact hasSub_of_startsWithL _ _ (startsWithL_append n (c :: h') t hs)
    · simp only [List.cons_append, hasSub, Bool.or_eq_true]
      exact Or.inr (ih hr)

theorem hasSub_append_left (n pre h : List Char) (hh : hasSub n h = true) :
    hasSub n (pre ++ h) = true := by
  induction pre with
  | nil => simpa using hh
  | cons c p ih =>
    simp only [List.cons_append, hasSub, Bool.or_eq_true]
    exact Or.inr ih

theorem createFolderLoop_mem (parts : List String) (state : List String)
    (cur x : String) (hx : x ∈ state) : x ∈ (createFolderLoop state cur parts).1 := by
  induction parts generalizing state cur with
  | nil => simpa [createFolderLoop] using hx
  | cons p rest ih =>
    by_cases hp : p = ""
    · simpa [createFolderLoop, hp] using ih state cur hx
    · by_cases hm : extendPath cur p ∈ state
      · simpa [createFolderLoop, hp, hm] using ih state (extendPath cur p) hx
      · simpa [createFolderLoop, hp, hm] using
          ih (extendPath cur p :: state) (extendPath cur p) (List.mem_cons_of_mem _ hx)

theorem createFolderLoop_idem (parts : List String) (state : List String)
    (cur : String) :
    createFolderLoop (createFolderLoop state cur parts).1 cur parts =
      ((createFolderLoop state cur parts).1, []) := by
  induction parts generalizing state cur with
  | nil => simp [createFolderLoop]
  | cons p rest ih =>
    by_cases hp : p = ""
    · simpa [createFolderLoop, hp] using ih state cur
    · by_cases hm : extendPath cur p ∈ state
      · have hmem : extendPath cur p ∈ (createFolderLoop state (extendPath cur p) rest).1 :=
          createFolderLoop_mem rest state (extendPath cur p) _ hm
        simpa [createFolderLoop, hp, hm, hmem] using ih state (extendPath cur p)
      · have hmem : extendPath cur p ∈
            (createFolderLoop (extendPath cur p :: state) (extendPath cur p) rest).1 :=
          createFolderLoop_mem rest _ _ _ (List.mem_cons_self _ _)
        simpa [createFolderLoop, hp, hm, hmem] using
          ih (extendPath cur p :: state) (extendPath cur p)

/-- Claim C5: `is_token_valid` returns false when the expiry is absent or
strictly in the past, true when it is strictly in the future; the
comparison is a plain wall-clock `<` with no grace window, and the
function reads the context without modifying it. -/
theorem is_token_valid_spec (now e : Int) (ctx : SharePointContext) :
    (ctx.token_expiry = none → SharePointContext.is_token_valid now ctx = false)
    ∧ (ctx.token_expiry = some e → e < now →
        SharePointContext.is_token_valid now ctx = false)
    ∧ (ctx.token_expiry = some e → now < e →
        SharePointContext.is_token_valid now ctx = true) := by
  refine ⟨fun h => ?_, fun h hlt => ?_, fun h hlt => ?_⟩
  · simp [SharePointContext.is_token_valid, h]
  · simp only [SharePointContext.is_token_valid, h, decide_eq_false_iff_not]
    omega
  · simp only [SharePointContext.is_token_valid, h, decide_eq_true_eq]
    exact hlt

/-- Claim C5 witness: concrete absent, past and future expiries. -/
theorem is_token_valid_spec_witness :
    (SharePointContext.is_token_valid 50 ⟨"t", none, "u"⟩ = false)
    ∧ (SharePointContext.is_token_valid 50 ⟨"t", some 10, "u"⟩ = false)
    ∧ (SharePointContext.is_token_valid 50 ⟨"t", some 90, "u"⟩ = true) :=
  ⟨(is_token_valid_spec 50 0 ⟨"t", none, "u"⟩).1 rfl,
   (is_token_valid_spec 50 10 ⟨"t", some 10, "u"⟩).2.1 rfl (by decide),
   (is_token_valid_spec 50 90 ⟨"t", some 90, "u"⟩).2.2 rfl (by decide)⟩

/-- Claim C9: `headers` returns exactly the two-entry map with the bearer
authorization (access token embedded verbatim) and the JSON content type;
the access token occurs verbatim as a substring of the authorization
value.  The function is a pure read of the context. -/
theorem headers_spec (ctx : SharePointContext) :
    ctx.headers = [("Authorization", "Bearer " ++ ctx.access_token),
                   ("Content-Type", "application/json")]
    ∧ strHasSub ctx.access_token ("Bearer " ++ ctx.access_token) = true := by
  refine ⟨rfl, ?_⟩
  unfold strHasSub
  rw [string_data_append]
  exact hasSub_append_left _ _ _
    (hasSub_of_startsWithL _ _ (startsWithL_refl ctx.access_token.data))

/-- Claim C10: when startup authentication fails, `sharepoint_lifespan`
swallows the error and yields the fallback context whose token is the
literal string "error", whose expiry is ten seconds past the current wall
clock, and whose Graph URL is the default. -/
theorem sharepoint_lifespan_error_context (now : Int) (e : String) :
    sharepoint_lifespan now (Except.error e) =
      { access_token := "error", token_expiry := some (now + 10),
        graph_url := "https://graph.microsoft.com/v1.0" } := rfl

/-- Claim C8: configuration validation fails fast, naming exactly the
missing keys when any of the four required values is empty, rejecting a
site URL without the https scheme or the SharePoint hosting-domain
pattern, and accepting a fully populated config with a well-formed URL. -/
theorem validate_config_spec (c : SharePointConfig) :
    (missingVars c ≠ [] →
      validate_config c =
        Except.error ("Missing required configuration: " ++ joinComma (missingVars c)))
    ∧ (missingVars c = [] →
        ¬ (strStartsWith c.site_url "https://" = true ∧
           strHasSub ".sharepoint.com/" (strToLower c.site_url) = true) →
        validate_config c =
          Except.error ("Invalid SharePoint site URL: " ++ c.site_url))
    ∧ validate_config
        { tenant_id := "t", client_id := "c", client_secret := "s",
          site_url := "https://contoso.sharepoint.com/sites/Eng" } = Except.ok () := by
  refine ⟨fun h => ?_, fun h1 h2 => ?_, ?_⟩
  · simp [validate_config, h]
  · simp [validate_config, h1, h2]
  · rfl

/-- Claim C8 witness: scenario B (missing client secret names exactly that
key) and scenario C (insecure scheme rejected). -/
theorem validate_config_spec_witness :
    validate_config
        { tenant_id := "t", client_id := "c", client_secret := "",
          site_url := "https://contoso.sharepoint.com/sites/Eng" } =
      Except.error "Missing required configuration: client_secret"
    ∧ validate_config
        { tenant_id := "t", client_id := "c", client_secret := "s",
          site_url := "http://contoso.sharepoint.com/sites/Eng" } =
      Except.error
        "Invalid SharePoint site URL: http://contoso.sharepoint.com/sites/Eng" :=
  ⟨(validate_config_spec
      { tenant_id := "t", client_id := "c", client_secret := "",
        site_url := "https://contoso.sharepoint.com/sites/Eng" }).1 (by decide),
   (validate_config_spec
      { tenant_id := "t", client_id := "c", client_secret := "s",
        site_url := "http://contoso.sharepoint.com/sites/Eng" }).2.1 (by decide)
     (by decide)⟩

/-- Claim C4: when the token-exchange result lacks `access_token`,
`get_auth_context` raises the authentication error built from the result's
error fields, returns no context, and leaves the token-cache file exactly
as it was before the call. -/
theorem get_auth_context_no_token (cacheIn : Option String) (cacheBlob : String)
    (result : TokenResult) (now : Int) (h : result.access_token = none) :
    get_auth_context cacheIn cacheBlob result now =
      (Except.error ("Authentication failed: " ++ result.error.getD "unknown" ++
        " - " ++ result.error_description.getD "Unknown error"), cacheIn) := by
  unfold get_auth_context
  rw [h]

/-- Claim C4 witness: scenario D, the exchange answers
`{"error": "invalid_client"}` with no cache file present, and no cache
file is written. -/
theorem get_auth_context_no_token_witness :
    get_auth_context none "blob" ⟨none, none, some "invalid_client", none⟩ 0 =
      (Except.error "Authentication failed: invalid_client - Unknown error", none) :=
  get_auth_context_no_token none "blob" ⟨none, none, some "invalid_client", none⟩ 0 rfl

/-- Claim C1 counterexample: refreshing an expired token does NOT replace
the context wholesale.  `refresh_token_if_needed` assigns
`context.access_token` and then `context.token_expiry`, so the shared
context passes through an intermediate state pairing the new access token
with the old expiry — a state distinct from both the pre-refresh context
and the fully refreshed one. -/
theorem refresh_not_wholesale_counterexample :
    refresh_token_if_needed 150 ⟨"old-token", some 100, "g"⟩
        (Except.ok ⟨"new-token", some 200, "g"⟩) =
      Except.ok [⟨"old-token", some 100, "g"⟩, ⟨"new-token", some 100, "g"⟩,
                 ⟨"new-token", some 200, "g"⟩]
    ∧ (⟨"new-token", some 100, "g"⟩ : SharePointContext) ≠
        ⟨"old-token", some 100, "g"⟩
    ∧ (⟨"new-token", some 100, "g"⟩ : SharePointContext) ≠
        ⟨"new-token", some 200, "g"⟩ :=
  ⟨rfl, by decide, by decide⟩

/-- Claim C1 amended: on refresh of an expired token the context is
updated field by field, not replaced wholesale: the shared context passes
through an intermediate state carrying the new access token and the old
expiry, and the final state carries the new token and new expiry while
keeping the original graph URL. -/
theorem refresh_field_by_field (now : Int) (ctx newC : SharePointContext)
    (h : SharePointContext.is_token_valid now ctx = false) :
    ∃ mid fin,
      refresh_token_if_needed now ctx (Except.ok newC) = Except.ok [ctx, mid, fin]
      ∧ mid.access_token = newC.access_token
      ∧ mid.token_expiry = ctx.token_expiry
      ∧ fin.access_token = newC.access_token
      ∧ fin.token_expiry = newC.token_expiry
      ∧ fin.graph_url = ctx.graph_url := by
  refine ⟨{ ctx with access_token := newC.access_token },
          { ctx with access_token := newC.access_token,
                     token_expiry := newC.token_expiry },
          ?_, rfl, rfl, rfl, rfl, rfl⟩
  simp [refresh_token_if_needed, h]

/-- Claim C1 amended witness: concrete refresh of an expired token. -/
theorem refresh_field_by_field_witness :
    ∃ mid fin,
      refresh_token_if_needed 150 ⟨"o", some 100, "g"⟩
          (Except.ok ⟨"n", some 200, "g"⟩) =
        Except.ok [⟨"o", some 100, "g"⟩, mid, fin]
      ∧ mid.access_token = "n"
      ∧ mid.token_expiry = some 100
      ∧ fin.access_token = "n"
      ∧ fin.token_expiry = some 200
      ∧ fin.graph_url = "g" :=
  refresh_field_by_field 150 ⟨"o", some 100, "g"⟩ ⟨"n", some 200, "g"⟩ (by decide)

/-- Claim C7: folder-path creation is idempotent.  Running
`create_folder_in_library` a second time with the same path against the
drive state left by the first run issues no create request at all (so no
renamed sibling can appear and no create can raise) and leaves the drive
state unchanged: each path segment is probed for existence before a create
is attempted. -/
theorem create_folder_in_library_idempotent (state : List String)
    (folder_path : String) :
    GraphClient.create_folder_in_library
        (GraphClient.create_folder_in_library state folder_path).1 folder_path =
      ((GraphClient.create_folder_in_library state folder_path).1, []) :=
  createFolderLoop_idem (folder_path.splitOn "/") state ""

/-- Claim C2 counterexample: GET does not accept every 2xx status.  A 201
response with a JSON body is rejected: GET raises the generic Graph API
error instead of returning the body. -/
theorem get_non200_counterexample :
    (GraphClient.get ⟨201, Json.null, "Created"⟩).1 =
        Except.error "Graph API error: 201 - Created"
    ∧ (GraphClient.get ⟨201, Json.null, "Created"⟩).1 ≠ Except.ok Json.null := by
  constructor
  · rfl
  · intro h
    rw [show (GraphClient.get ⟨201, Json.null, "Created"⟩).1 =
          Except.error "Graph API error: 201 - Created" from rfl] at h
    exact Except.noConfusion h

/-- Claim C2 amended: GET returns the JSON body unmodified exactly on
status 200; every other status — other 2xx codes included — raises the
Graph API error built from the status and raw text; on 404 the raised
message contains the literal digits 404. -/
theorem get_spec (r : HttpResponse) :
    (r.status = 200 → (GraphClient.get r).1 = Except.ok r.body)
    ∧ (r.status ≠ 200 →
        (GraphClient.get r).1 = Except.error (graphErrMsg r.status r.text))
    ∧ (r.status = 404 →
        ∃ msg, (GraphClient.get r).1 = Except.error msg
          ∧ strHasSub "404" msg = true) := by
  refine ⟨fun h => ?_, fun h => ?_, fun h => ?_⟩
  · simp [GraphClient.get, h]
  · simp [GraphClient.get, h]
  · refine ⟨graphErrMsg r.status r.text, ?_, ?_⟩
    · have : r.status ≠ 200 := by omega
      simp [GraphClient.get, this]
    · rw [h]
      simp only [graphErrMsg, strHasSub, string_data_append]
      exact hasSub_append_right _ _ _ (by decide)

/-- Claim C2 amended witness: a 200 response round-trips its body and a
404 response raises with 404 in the message. -/
theorem get_spec_witness :
    (GraphClient.get ⟨200, Json.num 7, "ok"⟩).1 = Except.ok (Json.num 7)
    ∧ (GraphClient.get ⟨404, Json.null, "Not Found"⟩).1 =
        Except.error (graphErrMsg 404 "Not Found")
    ∧ ∃ msg, (GraphClient.get ⟨404, Json.null, "Not Found"⟩).1 = Except.error msg
        ∧ strHasSub "404" msg = true :=
  ⟨(get_spec ⟨200, Json.num 7, "ok"⟩).1 rfl,
   (get_spec ⟨404, Json.null, "Not Found"⟩).2.1 (by decide),
   (get_spec ⟨404, Json.null, "Not Found"⟩).2.2 rfl⟩

/-- Claim C3 counterexample: DELETE does not return the parsed JSON body
on accepted non-204 statuses.  A 200 DELETE response carrying a JSON body
still yields the synthetic object `{"status": "success"}`, not the body. -/
theorem delete_200_counterexample :
    (GraphClient.delete ⟨200, Json.str "item-info", "b"⟩).1 = Except.ok successJson
    ∧ (GraphClient.delete ⟨200, Json.str "item-info", "b"⟩).1 ≠
        Except.ok (Json.str "item-info") := by
  constructor
  · rfl
  · intro h
    rw [show (GraphClient.delete ⟨200, Json.str "item-info", "b"⟩).1 =
          Except.ok successJson from rfl] at h
    injection h with h'
    simp only [successJson] at h'
    exact Json.noConfusion h'

/-- Claim C3 amended: PATCH and DELETE accept exactly {200, 201, 204} and
raise outside that set.  PATCH yields the synthetic `{"status":"success"}`
on 204 (never parsing the empty body) and the parsed JSON body on 200/201;
DELETE yields the synthetic `{"status":"success"}` on every accepted
status, never the response body. -/
theorem patch_delete_spec (r : HttpResponse) :
    (r.status = 204 → (GraphClient.patch r).1 = Except.ok successJson)
    ∧ ((r.status = 200 ∨ r.status = 201) →
        (GraphClient.patch r).1 = Except.ok r.body)
    ∧ ((r.status = 200 ∨ r.status = 201 ∨ r.status = 204) →
        (GraphClient.delete r).1 = Except.ok successJson)
    ∧ (¬ (r.status = 200 ∨ r.status = 201 ∨ r.status = 204) →
        (GraphClient.patch r).1 = Except.error (graphErrMsg r.status r.text)
        ∧ (GraphClient.delete r).1 = Except.error (graphErrMsg r.status r.text)) := by
  refine ⟨fun h => ?_, fun h => ?_, fun h => ?_, fun h => ⟨?_, ?_⟩⟩
  · simp [GraphClient.patch, h]
  · rcases h with h | h <;> simp [GraphClient.patch, h]
  · simp [GraphClient.delete, h]
  · simp [GraphClient.patch, h]
  · simp [GraphClient.delete, h]

/-- Claim C3 amended witness: concrete 204 and 200 PATCH responses, a 204
DELETE, and a rejected 500 for both verbs. -/
theorem patch_delete_spec_witness :
    (GraphClient.patch ⟨204, Json.null, ""⟩).1 = Except.ok successJson
    ∧ (GraphClient.patch ⟨200, Json.num 3, ""⟩).1 = Except.ok (Json.num 3)
    ∧ (GraphClient.delete ⟨204, Json.null, ""⟩).1 = Except.ok successJson
    ∧ ((GraphClient.patch ⟨500, Json.null, "ISE"⟩).1 =
          Except.error (graphErrMsg 500 "ISE")
       ∧ (GraphClient.delete ⟨500, Json.null, "ISE"⟩).1 =
          Except.error (graphErrMsg 500 "ISE")) :=
  ⟨(patch_delete_spec ⟨204, Json.null, ""⟩).1 rfl,
   (patch_delete_spec ⟨200, Json.num 3, ""⟩).2.1 (Or.inl rfl),
   (patch_delete_spec ⟨204, Json.null, ""⟩).2.2.1 (Or.inr (Or.inr rfl)),
   (patch_delete_spec ⟨500, Json.null, "ISE"⟩).2.2.2 (by decide)⟩

/-- Claim C6 counterexample: not every verb emits the claims diagnostic.
A 401 PATCH response whose body contains the marker substring
"scp or roles claim" is answered with only the generic Graph API error:
the dedicated claims diagnostic that GET and POST log is absent from the
PATCH diagnostics. -/
theorem patch_401_no_claims_diagnostic_counterexample :
    strHasSub "scp or roles claim"
        "the token lacks the scp or roles claim it needs" = true
    ∧ (GraphClient.patch
        ⟨401, Json.null, "the token lacks the scp or roles claim it needs"⟩).1 =
      Except.error
        (graphErrMsg 401 "the token lacks the scp or roles claim it needs")
    ∧ (GraphClient.patch
        ⟨401, Json.null, "the token lacks the scp or roles claim it needs"⟩).2 =
      [graphErrMsg 401 "the token lacks the scp or roles claim it needs"]
    ∧ claimsDiagnostic ∉ (GraphClient.patch
        ⟨401, Json.null, "the token lacks the scp or roles claim it needs"⟩).2 :=
  ⟨by decide, rfl, rfl, by decide⟩

/-- Claim C6 amended: every verb raises the single generic error carrying
the numeric status and raw body on any status outside its accepted set,
but only GET and POST run the 401/403 claims check: they log the dedicated
claims diagnostic when the body contains "scp or roles claim", while
PATCH, DELETE and the upload PUT log only the generic message. -/
theorem error_diagnostics_spec (r : HttpResponse) :
    (r.status ≠ 200 →
        (GraphClient.get r).1 = Except.error (graphErrMsg r.status r.text)
        ∧ (GraphClient.get r).2 = authErrorLogs r.status r.text)
    ∧ (¬ (r.status = 200 ∨ r.status = 201) →
        (GraphClient.post r).1 = Except.error (graphErrMsg r.status r.text)
        ∧ (GraphClient.post r).2 = authErrorLogs r.status r.text)
    ∧ (¬ (r.status = 200 ∨ r.status = 201 ∨ r.status = 204) →
        (GraphClient.patch r).1 = Except.error (graphErrMsg r.status r.text)
        ∧ (GraphClient.delete r).1 = Except.error (graphErrMsg r.status r.text)
        ∧ (GraphClient.upload_file r).1 = Except.error (graphErrMsg r.status r.text)
        ∧ (GraphClient.patch r).2 = [graphErrMsg r.status r.text]
        ∧ (GraphClient.delete r).2 = [graphErrMsg r.status r.text]
        ∧ (GraphClient.upload_file r).2 = [graphErrMsg r.status r.text])
    ∧ ((r.status = 401 ∨ r.status = 403) →
        strHasSub "scp or roles claim" r.text = true →
        claimsDiagnostic ∈ (GraphClient.get r).2
        ∧ claimsDiagnostic ∈ (GraphClient.post r).2) := by
  refine ⟨fun h => ?_, fun h => ?_, fun h => ?_, fun h hsub => ?_⟩
  · simp [GraphClient.get, h]
  · simp [GraphClient.post, h]
  · simp [GraphClient.patch, GraphClient.delete, GraphClient.upload_file, h]
  · rcases h with h | h <;>
      simp [GraphClient.get, GraphClient.post, authErrorLogs, h, hsub]

/-- Claim C6 amended witness: a rejected 500 for every verb, and a 401
with the marker substring for GET and POST. -/
theorem error_diagnostics_spec_witness :
    ((GraphClient.get ⟨500, Json.null, "ISE"⟩).1 =
        Except.error (graphErrMsg 500 "ISE")
     ∧ (GraphClient.get ⟨500, Json.null, "ISE"⟩).2 = authErrorLogs 500 "ISE")
    ∧ ((GraphClient.post ⟨500, Json.null, "ISE"⟩).1 =
        Except.error (graphErrMsg 500 "ISE")
       ∧ (GraphClient.post ⟨500, Json.null, "ISE"⟩).2 = authErrorLogs 500 "ISE")
    ∧ ((GraphClient.patch ⟨500, Json.null, "ISE"⟩).1 =
          Except.error (graphErrMsg 500 "ISE")
       ∧ (GraphClient.delete ⟨500, Json.null, "ISE"⟩).1 =
          Except.error (graphErrMsg 500 "ISE")
       ∧ (GraphClient.upload_file ⟨500, Json.null, "ISE"⟩).1 =
          Except.error (graphErrMsg 500 "ISE")
       ∧ (GraphClient.patch ⟨500, Json.null, "ISE"⟩).2 = [graphErrMsg 500 "ISE"]
       ∧ (GraphClient.delete ⟨500, Json.null, "ISE"⟩).2 = [graphErrMsg 500 "ISE"]
       ∧ (GraphClient.upload_file ⟨500, Json.null, "ISE"⟩).2 =
          [graphErrMsg 500 "ISE"])
    ∧ (claimsDiagnostic ∈
        (GraphClient.get ⟨401, Json.null, "no scp or roles claim present"⟩).2
       ∧ claimsDiagnostic ∈
        (GraphClient.post ⟨401, Json.null, "no scp or roles claim present"⟩).2) :=
  ⟨(error_diagnostics_spec ⟨500, Json.null, "ISE"⟩).1 (by decide),
   (error_diagnostics_spec ⟨500, Json.null, "ISE"⟩).2.1 (by decide),
   (error_diagnostics_spec ⟨500, Json.null, "ISE"⟩).2.2.1 (by decide),
   (error_diagnostics_spec ⟨401, Json.null, "no scp or roles claim present"⟩).2.2.2
     (Or.inl rfl) (by decide)⟩
